import Mathlib

/-!
Verification of the Telegram chat-relay bot (`main.py`): a shallow embedding
of its conversation memory, upstream chat client, message handler, command
handlers and startup checks, together with theorems settling the documented
behavioural properties.
-/

namespace ChatBot

/-- A role-tagged chat message — the `{"role": r, "content": c}` dict of the
source. -/
structure Msg where
  role : String
  content : String
deriving DecidableEq

/-- Minimal JSON value model, used for the upstream response body. -/
inductive Json where
  | null
  | bool (b : Bool)
  | num (n : Int)
  | str (s : String)
  | arr (elems : List Json)
  | obj (fields : List (String × Json))

/-- `j[key]` on a JSON object; `none` models the KeyError/TypeError a
Python subscript raises otherwise. -/
def Json.getField? : Json → String → Option Json
  | .obj fields, key => (fields.find? (fun p => p.1 == key)).map Prod.snd
  | _, _ => none

/-- `j[i]` on a JSON array. -/
def Json.getIdx? : Json → Nat → Option Json
  | .arr elems, i => elems[i]?
  | _, _ => none

/-- The string payload of a JSON string value. -/
def Json.asStr? : Json → Option String
  | .str s => some s
  | _ => none

/-- Python's `str.strip()` with no argument: remove leading and trailing
whitespace. -/
def strip (s : String) : String :=
  ⟨((s.data.dropWhile Char.isWhitespace).reverse.dropWhile Char.isWhitespace).reverse⟩

/-- `data["choices"][0]["message"]["content"]` from `ask_openrouter`;
`none` models the exception a malformed body raises. -/
def extractContent (data : Json) : Option String := do
  let choices ← data.getField? "choices"
  let first ← choices.getIdx? 0
  let message ← first.getField? "message"
  let content ← message.getField? "content"
  content.asStr?

/-- Outcome of the HTTP POST to the chat-completions endpoint as observed by
`ask_openrouter`: either a response (status plus JSON body), or a
network-level failure — connection error or the 60-second timeout — which
aiohttp raises as an exception inside `ask_openrouter`. -/
inductive UpstreamResult where
  | response (status : Nat) (body : Json)
  | netFailure (kind : String)

/-- A Python exception escaping `ask_openrouter` to its caller. -/
inductive Fault where
  | network (kind : String)
  | badBody
deriving DecidableEq

/-- The fixed user-safe text returned on a non-200 HTTP status. -/
def httpErrorFallback : String := "❌ Sorry, there was a problem connecting to the AI."

/-- What one call to `ask_openrouter` produces: a reply string or a
propagated fault, plus the `(status, body)` pairs handed to `logging.error`. -/
structure ApiCallResult where
  result : Except Fault String
  logged : List (Nat × Json)

/-- `ask_openrouter(messages)`: on a non-200 status it logs the status and
body and returns the fixed fallback text (no exception); on 200 it extracts
`choices[0].message.content` and returns it stripped; a network failure or a
malformed 200 body propagates as a fault. -/
def ask_openrouter (r : UpstreamResult) : ApiCallResult :=
  match r with
  | .netFailure kind => ⟨.error (.network kind), []⟩
  | .response status body =>
    if status ≠ 200 then
      ⟨.ok httpErrorFallback, [(status, body)]⟩
    else
      match extractContent body with
      | some content => ⟨.ok (strip content), []⟩
      | none => ⟨.error .badBody, []⟩

/-- `user_memory`: the per-user conversation store. `none` models a key that
is absent from the dict. -/
abbrev Memory := Int → Option (List Msg)

/-- The module-level mutable state of the bot process: `user_memory`,
`known_users`, and the users file. The file is modelled as the JSON array of
user ids it stores (`none` = the file does not exist). -/
structure BotState where
  user_memory : Memory
  known_users : List Int
  users_file : Option (List Int)

/-- `load_users()`: read the persisted user list; a missing file yields the
empty list. -/
def load_users (file : Option (List Int)) : List Int := file.getD []

/-- Process state right after module load: empty memory, `known_users`
loaded from the users file. -/
def initialState (file : Option (List Int)) : BotState :=
  ⟨fun _ => none, load_users file, file⟩

/-- `history[-8:]`: the last `n` elements of a list (all of them when the
list is shorter). -/
def lastN {α : Type} (n : Nat) (xs : List α) : List α := xs.drop (xs.length - n)

/-- The fixed system-prompt message prepended to every request context. -/
def system_prompt : Msg :=
  ⟨"system", "You are a friendly Telegram assistant by @dionbett and powered by @Uknowntech1."⟩

/-- The "Thinking..." text sent before the upstream call. -/
def thinkingText : String := "🤖 Thinking..."

/-- The fallback text sent when an exception is caught in `handle_message`. -/
def genericFallback : String := "⚠️ Something went wrong. Please try again later."

/-- The new-user registration block shared by `start` and `handle_message`:
if the id is unknown, append it to `known_users` and rewrite the whole list
to the users file (`save_users(known_users)`). -/
def registerUser (s : BotState) (user_id : Int) : BotState :=
  if user_id ∈ s.known_users then s
  else
    let users := s.known_users ++ [user_id]
    { s with known_users := users, users_file := some users }

/-- The `/start` command handler: registers the user. The greeting it relays
back is platform transport with fixed text and is not modelled further. -/
def start (s : BotState) (user_id : Int) : BotState :=
  registerUser s user_id

/-- Everything one `handle_message` invocation produces: the new process
state, the texts relayed to the sender in order, the upstream requests made
(each a full message list), and the log entries. -/
structure TurnOut where
  state : BotState
  replies : List String
  calls : List (List Msg)
  logged : List (Nat × Json)

/-- `handle_message` for one inbound text. `history = user_memory.get(user_id, [])`
returns the stored list object itself when the key is present, so the
subsequent `history.append({..user..})` mutates the stored conversation in
place; the rebinding `history = history[-8:]` then continues on a copy. The
environment's behaviour for this turn's single upstream POST is the
`upstream` parameter. -/
def handle_message (s : BotState) (user_id : Int) (user_input : String)
    (upstream : UpstreamResult) : TurnOut :=
  let s1 := registerUser s user_id
  let stored := s1.user_memory user_id
  let history1 := stored.getD [] ++ [Msg.mk "user" user_input]
  -- the in-place append is visible in `user_memory` only when the key exists
  let memAfterAppend : Memory := fun u =>
    if u = user_id then stored.map (fun _ => history1) else s1.user_memory u
  let history2 := lastN 8 history1
  let messages := system_prompt :: history2
  let api := ask_openrouter upstream
  match api.result with
  | .ok ai_reply =>
    let history3 := history2 ++ [Msg.mk "assistant" ai_reply]
    let memFinal : Memory := fun u =>
      if u = user_id then some (lastN 8 history3) else memAfterAppend u
    ⟨{ s1 with user_memory := memFinal }, [thinkingText, ai_reply], [messages], api.logged⟩
  | .error _ =>
    ⟨{ s1 with user_memory := memAfterAppend }, [thinkingText, genericFallback],
      [messages], api.logged⟩

/-- Iterate `handle_message` for one user over a sequence of inbound texts
paired with their upstream outcomes. -/
def runTurns (s : BotState) (user_id : Int) : List (String × UpstreamResult) → BotState
  | [] => s
  | (text, u) :: rest => runTurns (handle_message s user_id text u).state user_id rest

/-- The observable actions `main()` performs after its configuration checks. -/
inductive StartupAction where
  | buildApplication (token : String)
  | addHandler (name : String)
  | runPolling
deriving DecidableEq

/-- Python truthiness of an `os.getenv` result: `None` and `""` are falsy. -/
def envMissing : Option String → Bool
  | none => true
  | some v => v == ""

/-- `main()`: checks the two required environment variables and raises a
`ValueError` naming the missing one before building the application,
registering any handler, or polling. -/
def main (bot_token openrouter_api_key : Option String) :
    Except String (List StartupAction) :=
  if envMissing bot_token then
    .error "❗ TELEGRAM_BOT_TOKEN environment variable is missing."
  else if envMissing openrouter_api_key then
    .error "❗ OPENROUTER_API_KEY environment variable is missing."
  else
    .ok [.buildApplication (bot_token.getD ""),
      .addHandler "start", .addHandler "stats", .addHandler "message",
      .runPolling]

/-- A well-formed 200 response body carrying `content` as the first choice's
message content. -/
def chatBody (content : String) : Json :=
  .obj [("choices", .arr [.obj [("message", .obj [("content", .str content)])]])]

/-- A concrete run from the empty store: user 1 sends four messages that all
succeed upstream (filling the window to 8 entries) and a fifth whose
upstream call times out. -/
def c1Run : BotState :=
  runTurns (initialState none) 1
    [("m1", .response 200 (chatBody "r1")),
     ("m2", .response 200 (chatBody "r2")),
     ("m3", .response 200 (chatBody "r3")),
     ("m4", .response 200 (chatBody "r4")),
     ("m5", .netFailure "timeout")]

/-- A concrete run from the empty store: user 1 completes one successful
turn, so the store holds that turn's user message and assistant reply. -/
def c2Base : BotState :=
  runTurns (initialState none) 1 [("hello", .response 200 (chatBody "hi there"))]

/-- Registration never touches `user_memory`. -/
lemma registerUser_user_memory (s : BotState) (user_id : Int) :
    (registerUser s user_id).user_memory = s.user_memory := by
  unfold registerUser
  split <;> rfl

/-- Each `handle_message` turn makes exactly one upstream call, whose message
list is the system prompt followed by the post-append window. -/
lemma handle_message_calls (s : BotState) (user_id : Int) (text : String)
    (u : UpstreamResult) :
    (handle_message s user_id text u).calls =
      [system_prompt :: lastN 8 ((s.user_memory user_id).getD [] ++ [Msg.mk "user" text])] := by
  cases hr : (ask_openrouter u).result <;>
    simp [handle_message, hr, registerUser_user_memory]

/-- After a turn whose upstream call returns `r`, the sender's stored
conversation is the truncated post-append window with `r` appended as an
assistant message, truncated again. -/
lemma handle_message_memory_self_ok (s : BotState) (user_id : Int) (text r : String)
    (u : UpstreamResult) (hr : (ask_openrouter u).result = .ok r) :
    (handle_message s user_id text u).state.user_memory user_id =
      some (lastN 8 (lastN 8 ((s.user_memory user_id).getD [] ++ [Msg.mk "user" text])
        ++ [Msg.mk "assistant" r])) := by
  simp [handle_message, hr, registerUser_user_memory]

/-- `lastN` keeps a short enough appended suffix whole. -/
lemma lastN_append_of_length_le {α : Type} (n : Nat) (xs ys : List α)
    (h : ys.length ≤ n) :
    lastN n (xs ++ ys) = xs.drop (xs.length + ys.length - n) ++ ys := by
  unfold lastN
  rw [List.length_append, List.drop_append_of_le_length (by omega)]

/-- An element within the last `n` positions of a list survives `lastN n`. -/
lemma mem_lastN_append {α : Type} (n : Nat) (xs ys : List α) (a : α)
    (h : ys.length + 1 ≤ n) : a ∈ lastN n (xs ++ a :: ys) := by
  rw [lastN_append_of_length_le n xs (a :: ys) (by simpa using h)]
  exact List.mem_append_right _ (List.mem_cons_self a ys)

/-- C1: the claim that each user's stored conversation never exceeds the
window size W = 8 fails on the code. Starting from the empty store, four
successful turns leave user 1 with exactly 8 stored messages; a fifth turn
whose upstream call fails leaves 9: `history = user_memory.get(user_id, [])`
aliases the stored list, `history.append({..user..})` therefore grows it in
place, and the failure path never truncates or rewrites the entry. -/
theorem C1_window_bound_violated :
    ((c1Run.user_memory 1).getD []).length = 9 := by decide

/-- C2: the claim that a turn which raises a fault leaves the sender's
stored conversation unchanged fails on the code. After one successful turn
the store holds two messages; a following turn whose upstream call fails
leaves the inbound user message appended to the stored list, through the
same `history` alias. -/
theorem C2_failed_turn_changes_memory :
    c2Base.user_memory 1 = some [⟨"user", "hello"⟩, ⟨"assistant", "hi there"⟩] ∧
    (handle_message c2Base 1 "again" (.netFailure "timeout")).state.user_memory 1 =
      some [⟨"user", "hello"⟩, ⟨"assistant", "hi there"⟩, ⟨"user", "again"⟩] :=
  ⟨by decide, by decide⟩

/-- C3: on a 200 response whose body has the shape
`{"choices": [{"message": {"content": c}}]}`, `ask_openrouter` returns `c`
with surrounding whitespace stripped; in particular `" hi "` yields `"hi"`. -/
theorem C3_ok_response_trimmed :
    (∀ content : String,
      (ask_openrouter (.response 200 (chatBody content))).result = .ok (strip content)) ∧
    (ask_openrouter (.response 200 (chatBody " hi "))).result = .ok "hi" :=
  ⟨fun _ => rfl, rfl⟩

/-- C4: on any non-200 status, `ask_openrouter` raises no fault: it returns
the fixed fallback text and hands exactly the status code and body to
logging. -/
theorem C4_non200_returns_fallback (status : Nat) (body : Json) (h : status ≠ 200) :
    ask_openrouter (.response status body) = ⟨.ok httpErrorFallback, [(status, body)]⟩ := by
  simp [ask_openrouter, h]

/-- Instance of C4 at a 500 response. -/
theorem C4_witness :
    (500 ≠ 200) ∧
    ask_openrouter (.response 500 Json.null) = ⟨.ok httpErrorFallback, [(500, Json.null)]⟩ :=
  ⟨by decide, C4_non200_returns_fallback 500 Json.null (by decide)⟩

/-- C5: a network-level failure of the upstream call propagates out of
`ask_openrouter` as a fault, distinguishable from any non-200 HTTP outcome
(which returns normally), and `handle_message` converts it into the
"something went wrong" fallback reply to the sender. -/
theorem C5_network_fault_propagates (s : BotState) (user_id : Int)
    (text kind : String) (status : Nat) (body : Json) (h : status ≠ 200) :
    (ask_openrouter (.netFailure kind)).result = .error (.network kind) ∧
    (ask_openrouter (.netFailure kind)).result ≠
      (ask_openrouter (.response status body)).result ∧
    (handle_message s user_id text (.netFailure kind)).replies
      = [thinkingText, genericFallback] := by
  refine ⟨rfl, ?_, rfl⟩
  have hok : (ask_openrouter (.response status body)).result = .ok httpErrorFallback := by
    simp [ask_openrouter, h]
  rw [hok]
  simp [ask_openrouter]

/-- Instance of C5 at a timeout against a 500 response, from the initial
state. -/
theorem C5_witness :
    (500 ≠ 200) ∧
    ((ask_openrouter (.netFailure "timeout")).result = .error (.network "timeout") ∧
     (ask_openrouter (.netFailure "timeout")).result ≠
       (ask_openrouter (.response 500 Json.null)).result ∧
     (handle_message (initialState none) 7 "hello" (.netFailure "timeout")).replies
       = [thinkingText, genericFallback]) :=
  ⟨by decide,
   C5_network_fault_propagates (initialState none) 7 "hello" "timeout" 500 Json.null (by decide)⟩

/-- C6: every handled message produces exactly one upstream call — no
retries — whose request context is the fixed system prompt followed by the
sender's post-append window. -/
theorem C6_single_upstream_call (s : BotState) (user_id : Int) (text : String)
    (u : UpstreamResult) :
    (handle_message s user_id text u).calls =
      [system_prompt :: lastN 8 ((s.user_memory user_id).getD [] ++ [Msg.mk "user" text])] :=
  handle_message_calls s user_id text u

/-- C7: handling a message from user `a` leaves the stored conversation of
any other user `b` unchanged. -/
theorem C7_other_user_window_unchanged (s : BotState) (a b : Int) (text : String)
    (u : UpstreamResult) (h : a ≠ b) :
    (handle_message s a text u).state.user_memory b = s.user_memory b := by
  have hb : ¬ b = a := fun hba => h hba.symm
  cases hr : (ask_openrouter u).result <;>
    simp [handle_message, hr, registerUser_user_memory, hb]

/-- Instance of C7 for users 1 and 2 from the initial state. -/
theorem C7_witness :
    ((1 : Int) ≠ 2) ∧
    (handle_message (initialState none) 1 "hi" (.netFailure "x")).state.user_memory 2 =
      (initialState none).user_memory 2 :=
  ⟨by decide,
   C7_other_user_window_unchanged (initialState none) 1 2 "hi" (.netFailure "x") (by decide)⟩

/-- C8: if either required environment variable is absent, `main` fails with
a descriptive configuration error naming the missing variable, and produces
no startup action — no application build, no handler registration, no
polling. -/
theorem C8_missing_env_fails_fast (bot_token openrouter_api_key : Option String)
    (h : bot_token = none ∨ openrouter_api_key = none) :
    (∃ msg : String, main bot_token openrouter_api_key = .error msg) ∧
    ∀ acts : List StartupAction, main bot_token openrouter_api_key ≠ .ok acts := by
  have herr : ∃ msg : String, main bot_token openrouter_api_key = .error msg := by
    rcases h with h | h
    · subst h
      refine ⟨"❗ TELEGRAM_BOT_TOKEN environment variable is missing.", ?_⟩
      unfold main
      simp [envMissing]
    · subst h
      by_cases hb : envMissing bot_token = true
      · refine ⟨"❗ TELEGRAM_BOT_TOKEN environment variable is missing.", ?_⟩
        unfold main
        rw [if_pos hb]
      · refine ⟨"❗ OPENROUTER_API_KEY environment variable is missing.", ?_⟩
        unfold main
        rw [if_neg hb]
        simp [envMissing]
  obtain ⟨msg, hm⟩ := herr
  refine ⟨⟨msg, hm⟩, fun acts hc => ?_⟩
  rw [hm] at hc
  exact Except.noConfusion hc

/-- Instance of C8 with both variables absent. -/
theorem C8_witness :
    ((none : Option String) = none ∨ (none : Option String) = none) ∧
    ((∃ msg : String, main none none = .error msg) ∧
     ∀ acts : List StartupAction, main none none ≠ .ok acts) :=
  ⟨Or.inl rfl, C8_missing_env_fails_fast none none (Or.inl rfl)⟩

/-- C9: the persisted user list is read at startup with a missing file
yielding the empty list, and registering a new user — through the start
command or a first text message — rewrites the full list to the file. -/
theorem C9_user_list_persistence (fs : List Int) (s : BotState) (user_id : Int)
    (text : String) (u : UpstreamResult) (h : user_id ∉ s.known_users) :
    load_users none = [] ∧
    load_users (some fs) = fs ∧
    (start s user_id).users_file = some (s.known_users ++ [user_id]) ∧
    (handle_message s user_id text u).state.users_file
      = some (s.known_users ++ [user_id]) := by
  refine ⟨rfl, rfl, ?_, ?_⟩
  · simp [start, registerUser, h]
  · cases hr : (ask_openrouter u).result <;>
      simp [handle_message, hr, registerUser, h]

/-- Instance of C9 for a new user 3 from the initial state. -/
theorem C9_witness :
    ((3 : Int) ∉ (initialState none).known_users) ∧
    (load_users none = [] ∧ load_users (some [1, 2]) = [1, 2] ∧
     (start (initialState none) 3).users_file = some ((initialState none).known_users ++ [3]) ∧
     (handle_message (initialState none) 3 "yo" (.netFailure "x")).state.users_file
       = some ((initialState none).known_users ++ [3])) :=
  ⟨by decide,
   C9_user_list_persistence [1, 2] (initialState none) 3 "yo" (.netFailure "x") (by decide)⟩

/-- C10: on a non-200 upstream response, the fixed HTTP-error fallback text
is relayed to the sender and stored in the sender's conversation as an
assistant message, and it appears in the context window of the next
upstream call for that sender. -/
theorem C10_http_fallback_joins_window (s : BotState) (user_id : Int) (text : String)
    (status : Nat) (body : Json) (text2 : String) (u2 : UpstreamResult)
    (h : status ≠ 200) :
    (handle_message s user_id text (.response status body)).replies
      = [thinkingText, httpErrorFallback] ∧
    (handle_message s user_id text (.response status body)).state.user_memory user_id
      = some (lastN 8 (lastN 8 ((s.user_memory user_id).getD [] ++ [Msg.mk "user" text])
          ++ [Msg.mk "assistant" httpErrorFallback])) ∧
    Msg.mk "assistant" httpErrorFallback ∈
      (handle_message (handle_message s user_id text (.response status body)).state
        user_id text2 u2).calls.headD [] := by
  have hok : (ask_openrouter (.response status body)).result = .ok httpErrorFallback := by
    simp [ask_openrouter, h]
  have hmem := handle_message_memory_self_ok s user_id text httpErrorFallback
    (.response status body) hok
  refine ⟨?_, hmem, ?_⟩
  · simp [handle_message, hok]
  · rw [handle_message_calls]
    simp only [List.headD_cons]
    apply List.mem_cons_of_mem
    rw [hmem]
    simp only [Option.getD_some]
    rw [lastN_append_of_length_le 8 _ [Msg.mk "assistant" httpErrorFallback] (by simp),
        List.append_assoc]
    exact mem_lastN_append 8 _ _ _ (by simp)

/-- Instance of C10 at a 500 response from the initial state, with a
second turn following. -/
theorem C10_witness :
    (500 ≠ 200) ∧
    ((handle_message (initialState none) 1 "q" (.response 500 Json.null)).replies
        = [thinkingText, httpErrorFallback] ∧
     (handle_message (initialState none) 1 "q" (.response 500 Json.null)).state.user_memory 1
        = some (lastN 8 (lastN 8 (((initialState none).user_memory 1).getD []
            ++ [Msg.mk "user" "q"]) ++ [Msg.mk "assistant" httpErrorFallback])) ∧
     Msg.mk "assistant" httpErrorFallback ∈
       (handle_message (handle_message (initialState none) 1 "q"
           (.response 500 Json.null)).state 1 "q2" (.netFailure "x")).calls.headD []) :=
  ⟨by decide,
   C10_http_fallback_joins_window (initialState none) 1 "q" 500 Json.null "q2"
     (.netFailure "x") (by decide)⟩

end ChatBot
